import Mathlib

/-!
# Shorty — verification of the URL-shortener core

Shallow embedding of the `shorty` crate (files `src/lib.rs`, `src/db/urls.rs`,
`src/main.rs`, `src/cli_utils.rs`) and proofs about it.

Modelling conventions:
* The MongoDB `urls` collection is a `List UrlModel` (a store); documents keep
  insertion order, `find_one`/`update_one` act on the first document matching
  the `short_id` filter, matching MongoDB semantics.  `update_one` with a
  filter matching no document succeeds with `matched_count = 0` (MongoDB does
  not error on zero matches); the Rust code never inspects the returned
  `UpdateResult`.
* `insert_one` fails with a duplicate-key error when a document with the same
  `short_id` is already stored (the unique index installed by `Url::setup`).
* Every backend round trip can also fail for connectivity reasons; this is
  modelled by an injectable `fault : Option MongoError` argument per round
  trip (`none` = the backend behaves normally).
* Timestamps (`chrono::DateTime<Utc>`) are modelled as `Nat` instants; the
  caller passes the current instant `now`.
* `view_count` is a Rust `u32`: it is held as a `Nat` (program values stay
  below `2 ^ 32`), and the crate's single arithmetic operation on it — the
  `view_count + 1` inside `increment_view_count` — is performed modulo
  `2 ^ 32`, the wrapping semantics of release-mode Rust (a debug build would
  panic at the overflow instead; either way the value is never `c + 1` at
  `c = u32::MAX`).
-/

namespace Shorty

/-- The persisted document (struct `UrlModel`, src/db/urls.rs).  `view_count`
is a `u32` in the source; it is held here as a `Nat` whose program values stay
below `2 ^ 32`, with the one arithmetic operation on it performed modulo
`2 ^ 32` (see `Url.increment_view_count`). -/
structure UrlModel where
  short_id : String
  full_url : String
  view_count : Nat
  created_at : Nat
  updated_at : Nat
deriving Repr, DecidableEq

/-- Struct `UrlModelChangeset` (src/db/urls.rs): the optional field-level
deltas; a `none` field is skipped on serialisation (`skip_serializing_if`). -/
structure UrlModelChangeset where
  short_id : Option String
  full_url : Option String
  view_count : Option Nat
deriving Repr, DecidableEq

/-- MongoDB driver errors, as far as the crate distinguishes them: the
duplicate-key write error raised by the unique index, and anything else
(connectivity, server error, ...). -/
inductive MongoError where
  | duplicateKey
  | other (msg : String)
deriving Repr, DecidableEq

/-- The `urls` collection: stored documents in insertion order. -/
abbrev Store := List UrlModel

/-- A document-level backend round trip issued against the `urls` collection
(used to observe which calls an operation makes). -/
inductive RecordStoreCall where
  | insert (doc : UrlModel)
  | update (short_id : String) (cs : UrlModelChangeset)
  | findOne (short_id : String)
deriving Repr, DecidableEq

/-- `$set` document built by `impl From<UrlModelChangeset> for
UpdateModifications` (src/db/urls.rs:37-47): the serialised changeset (absent
fields untouched) plus `updated_at := now`. -/
def applySet (cs : UrlModelChangeset) (now : Nat) (m : UrlModel) : UrlModel :=
  { m with
    short_id := cs.short_id.getD m.short_id
    full_url := cs.full_url.getD m.full_url
    view_count := cs.view_count.getD m.view_count
    updated_at := now }

/-- MongoDB `update_one` with filter `{short_id: sid}`: applies the `$set` to
the first matching document; zero matches is a silent success. -/
def updateFirst (sid : String) (cs : UrlModelChangeset) (now : Nat) :
    Store → Store
  | [] => []
  | m :: rest =>
    if m.short_id == sid then applySet cs now m :: rest
    else m :: updateFirst sid cs now rest

/-- MongoDB `insert_one` under the unique index on `short_id` (installed by
`Url::setup`): duplicate-key error when the id is already present. -/
def insertOne (st : Store) (m : UrlModel) : Except MongoError Store :=
  if st.any (fun d => d.short_id == m.short_id) then .error .duplicateKey
  else .ok (st ++ [m])

/-- MongoDB `find_one` with filter `{short_id: sid}`. -/
def findOne (st : Store) (sid : String) : Option UrlModel :=
  st.find? (fun d => d.short_id == sid)

/-- Struct `Url` (src/db/urls.rs): the aggregate — current model, pending
changeset, and the fetched-from-DB flag.  The `collection` handle is
represented by passing the store explicitly to the DB operations. -/
structure Url where
  model : UrlModel
  changeset : Option UrlModelChangeset
  is_fetched_from_db : Bool
deriving Repr, DecidableEq

namespace Url

/-- `Url::new` (src/db/urls.rs:63-89): fresh aggregate, no changeset, not
fetched from the DB; both timestamps set to the current instant. -/
def new (short_id : String) (full_url : String) (view_count : Nat)
    (now : Nat) : Url :=
  { model := { short_id := short_id, full_url := full_url,
               view_count := view_count, created_at := now,
               updated_at := now }
    changeset := none
    is_fetched_from_db := false }

/-- `Url::from_model` (src/db/urls.rs:92-99): hydrated from a fetched
document. -/
def from_model (model : UrlModel) : Url :=
  { model := model, changeset := none, is_fetched_from_db := true }

/-- `Url::get_short_id` (src/db/urls.rs:160-162). -/
def get_short_id (u : Url) : String := u.model.short_id

/-- `Url::get_full_url` (src/db/urls.rs:165-167). -/
def get_full_url (u : Url) : String := u.model.full_url

/-- `Url::increment_view_count` (src/db/urls.rs:135-141): overwrites the whole
changeset with `{view_count: model.view_count + 1}`.  The addition is `u32`
arithmetic, so it is taken modulo `2 ^ 32` (release-mode wrapping; a debug
build would panic at `u32::MAX` instead of producing any value). -/
def increment_view_count (u : Url) : Url :=
  { u with changeset := some { short_id := none, full_url := none,
                               view_count := some ((u.model.view_count + 1) % 2 ^ 32) } }

/-- `Url::update_short_id` (src/db/urls.rs:170-187): merges the new id into an
existing changeset (keeping its other fields) or creates one holding only the
id delta.  The in-memory `model.short_id` is NOT touched. -/
def update_short_id (u : Url) (new_id : String) : Url :=
  match u.changeset with
  | some change =>
    { u with changeset := some { short_id := some new_id,
                                 full_url := change.full_url,
                                 view_count := change.view_count } }
  | none =>
    { u with changeset := some { short_id := some new_id,
                                 full_url := none, view_count := none } }

/-- `Url::_save_from_changeset` (src/db/urls.rs:101-111): `self.changeset.take()`
removes the changeset from the aggregate BEFORE the `update_one` round trip,
so it is gone even if that round trip fails.  The `.expect` panic on a `None`
changeset is modelled as an error carrying the panic message (the branch is
unreachable from `save`).  `fault` injects a connectivity failure of the
round trip. -/
def saveFromChangeset (u : Url) (st : Store) (now : Nat)
    (fault : Option MongoError) :
    Url × Except MongoError Store × List RecordStoreCall :=
  match u.changeset with
  | none =>
    (u, .error (.other "panic: trying to save from changeset when changeset is None"), [])
  | some cs =>
    let u' : Url := { u with changeset := none }
    match fault with
    | some e => (u', .error e, [.update u.model.short_id cs])
    | none =>
      (u', .ok (updateFirst u.model.short_id cs now st),
       [.update u.model.short_id cs])

/-- `Url::_save_new_url` (src/db/urls.rs:113-118): inserts the model only when
the aggregate was not fetched from the DB; otherwise a silent no-op. -/
def saveNewUrl (u : Url) (st : Store) (fault : Option MongoError) :
    Except MongoError Store × List RecordStoreCall :=
  if u.is_fetched_from_db then (.ok st, [])
  else
    match fault with
    | some e => (.error e, [.insert u.model])
    | none => (insertOne st u.model, [.insert u.model])

/-- `Url::save` (src/db/urls.rs:125-130): changeset present ⇒ partial update,
otherwise insert-if-new.  Returns the aggregate after the call, the backend
outcome (new store on success), and the round trips issued. -/
def save (u : Url) (st : Store) (now : Nat) (fault : Option MongoError) :
    Url × Except MongoError Store × List RecordStoreCall :=
  match u.changeset with
  | some _ => u.saveFromChangeset st now fault
  | none =>
    let r := u.saveNewUrl st fault
    (u, r.1, r.2)

end Url

/-! ## Shortening service (src/lib.rs)

Modelled from the spec: the identifier generator `generate_id` lives in
`src/id.rs`, which is absent from the sources (only `mod id;` and the call
sites remain).  Per the spec (§4.1, §9) it is a side-effect-free call that may
return a different candidate on each invocation, to be modelled as an
injectable identifier-generation strategy; we pass it as `gen : Nat → String`,
where `gen k` is the value returned by the (k+1)-th `generate_id` call of the
operation. -/

/-- `SAVE_RETRY_COUNT` (src/lib.rs:96). -/
def SAVE_RETRY_COUNT : Nat := 2

/-- The loop body of `create_url` (src/lib.rs:101-111).  `fuel` is the number
of remaining loop iterations: Rust's `for _ in 1..SAVE_RETRY_COUNT` iterates
`SAVE_RETRY_COUNT - 1` times.  `genCalls` counts `generate_id` calls already
made; `faults k` injects a connectivity failure into the (k+1)-th save round
trip.  Returns the result, the final aggregate and store, and the backend
calls issued (in order). -/
def create_url_go (gen : Nat → String) (now : Nat)
    (faults : Nat → Option MongoError) :
    Nat → Nat → Nat → Url → Store →
    (Except String String) × Url × Store × List RecordStoreCall
  | 0, _, _, u, st => (.error "could not generate a unique ID", u, st, [])
  | fuel + 1, genCalls, attempt, u, st =>
    match u.save st now (faults attempt) with
    | (u', .ok st', calls) => (.ok u'.get_short_id, u', st', calls)
    | (u', .error _, calls) =>
      let r := create_url_go gen now faults fuel (genCalls + 1) (attempt + 1)
        (u'.update_short_id (gen genCalls)) st
      (r.1, r.2.1, r.2.2.1, calls ++ r.2.2.2)

/-- `create_url` (src/lib.rs:95-114): generate an id, build a New aggregate
with view_count 0, then run the save/regenerate loop. -/
def create_url (gen : Nat → String) (full_url : String) (now : Nat)
    (st : Store) (faults : Nat → Option MongoError) :
    (Except String String) × Url × Store × List RecordStoreCall :=
  let id := gen 0
  let u := Url.new id full_url 0 now
  create_url_go gen now faults (SAVE_RETRY_COUNT - 1) 1 0 u st

/-- `get_url` (src/lib.rs:143-165): fetch by short id (`None` filter miss is
not an error), increment the view count, save, and return the full URL.
`findFault`/`saveFault` inject connectivity failures into the two round
trips.  Returns the result, the store afterwards, and the backend calls
issued. -/
def get_url (st : Store) (short_id : String) (now : Nat)
    (findFault : Option MongoError) (saveFault : Option MongoError) :
    (Except String (Option String)) × Store × List RecordStoreCall :=
  match findFault with
  | some _ => (.error "error while getting url object", st, [.findOne short_id])
  | none =>
    match findOne st short_id with
    | none => (.ok none, st, [.findOne short_id])
    | some m =>
      let u := (Url.from_model m).increment_view_count
      match u.save st now saveFault with
      | (u', .ok st', calls) =>
        (.ok (some u'.get_full_url), st', .findOne short_id :: calls)
      | (_, .error _, calls) =>
        (.error "could not update URL view count", st,
         .findOne short_id :: calls)

/-! ## CLI layer (src/main.rs, src/cli_utils.rs) -/

/-- `ShortyCommand` (src/cli_utils.rs:8-15). -/
inductive ShortyCommand where
  | lengthen (short_id : String)
  | shorten (full_url : String)
deriving Repr, DecidableEq

/-- Strips a leading `https?://` — the anchored alternative at the head of
the regex `^https?://[^ \x22]+$` — returning the remainder of the string.
The two branches are mutually exclusive (a string starting with `https://`
has `s`, not `:`, as its fifth character). -/
def stripHttpScheme : List Char → Option (List Char)
  | 'h' :: 't' :: 't' :: 'p' :: rest =>
    match rest with
    | 's' :: ':' :: '/' :: '/' :: rest2 => some rest2
    | ':' :: '/' :: '/' :: rest2 => some rest2
    | _ => none
  | _ => none

/-- `ShortyArgs::is_valid_url` (src/cli_utils.rs:24-31): match against the
anchored regex `^https?://[^ \x22]+$` — scheme, then one or more characters
none of which is a space or a double quote. -/
def is_valid_url (test_string : String) : Bool :=
  match stripHttpScheme test_string.data with
  | some rest => !rest.isEmpty && rest.all (fun c => c != ' ' && c != '\"')
  | none => false

/-- `ShortyArgs::build` (src/cli_utils.rs:33-65): skip the executable name,
read the command and its positional argument, validate shorten URLs. -/
def ShortyArgs.build (args : List String) : Except String ShortyCommand :=
  match args.drop 1 with
  | [] => .error "command positional argument was not found"
  | command :: rest =>
    match rest with
    | [] => .error "command_arg positional argument was not found"
    | command_arg :: _ =>
      if command = "lengthen" then .ok (.lengthen command_arg)
      else if command = "shorten" then
        if is_valid_url command_arg then .ok (.shorten command_arg)
        else .error "invalid URL format"
      else .error "invalid command"

/-- Observable outcome of a CLI run: exit code 1 with a message on standard
error, or exit code 0 with a line on standard output. -/
inductive RunOutcome where
  | exitFailure (stderr_msg : String)
  | success (stdout_line : String)
deriving Repr, DecidableEq

/-- `main` (src/main.rs:87-111) after the startup `setup_db` call.  Process
startup always runs the idempotent index setup first, before the arguments
are even parsed (spec §6); that call creates an index and issues no
document-level operation, so it is outside the returned `RecordStoreCall`
trace, which records every document-level backend call made while processing
the parsed command (`handle_shorten_url` / `handle_lengthen_short_id`,
src/main.rs:57-85).  Setup is modelled as succeeding. -/
def shorty_main (args : List String) (gen : Nat → String) (now : Nat)
    (st : Store) : RunOutcome × Store × List RecordStoreCall :=
  match ShortyArgs.build args with
  | .error err_string => (.exitFailure err_string, st, [])
  | .ok (.shorten full_url) =>
    match create_url gen full_url now st (fun _ => none) with
    | (.ok id, _, st', calls) => (.success id, st', calls)
    | (.error e, _, st', calls) => (.exitFailure e, st', calls)
  | .ok (.lengthen short_id) =>
    match get_url st short_id now none none with
    | (.ok (some full_url), st', calls) => (.success full_url, st', calls)
    | (.ok none, st', calls) => (.exitFailure "not found", st', calls)
    | (.error e, st', calls) => (.exitFailure e, st', calls)

/-! ## Auxiliary definitions for the claims -/

/-- N sequential (non-concurrent) `get_url` calls on the same short id with a
normally behaving backend: the list of per-call results and the final
store. -/
def get_url_seq (sid : String) (now : Nat) :
    Nat → Store → List (Except String (Option String)) × Store
  | 0, st => ([], st)
  | n + 1, st =>
    let r := get_url st sid now none none
    let rest := get_url_seq sid now n r.2.1
    (r.1 :: rest.1, rest.2)

/-- A concrete stored document used by several concrete-instance theorems. -/
def sampleModel : UrlModel :=
  { short_id := "s", full_url := "http://e", view_count := 3, created_at := 0, updated_at := 0 }

/-- A concrete document whose `short_id` has no match in an empty store. -/
def missModel : UrlModel :=
  { short_id := "x", full_url := "http://e", view_count := 0, created_at := 0, updated_at := 0 }

/-- Identifier-generation stub of the spec's collision scenario: the first
`generate_id` call returns `"X"`, every later call returns `"Y"`. -/
def collideGen : Nat → String := fun k => if k = 0 then "X" else "Y"

/-- A store that already holds a record under short id `"X"`, so the first
insert of the collision scenario hits the unique index. -/
def collideStore : Store :=
  [{ short_id := "X", full_url := "http://other", view_count := 0, created_at := 0, updated_at := 0 }]

/-- Fault schedule injecting a non-duplicate backend error (connectivity
failure `"boom"`) into every save round trip. -/
def boomFaults : Nat → Option MongoError := fun _ => some (.other "boom")

/-- A stored record whose `u32` view counter sits at `u32::MAX`. -/
def maxedModel : UrlModel :=
  { short_id := "m", full_url := "http://e", view_count := 2 ^ 32 - 1, created_at := 0, updated_at := 0 }

/-! ## Helper lemmas -/

/-- `update_short_id` only touches the changeset, never the model. -/
theorem update_short_id_model (u : Url) (n : String) :
    (u.update_short_id n).model = u.model := by
  cases h : u.changeset <;> simp [Url.update_short_id, h]

/-- `increment_view_count` only touches the changeset, never the model. -/
theorem increment_view_count_model (u : Url) :
    u.increment_view_count.model = u.model := rfl

/-- `update_one` on a filter matching no stored document is a silent no-op. -/
theorem updateFirst_of_findOne_none (sid : String) (cs : UrlModelChangeset)
    (now : Nat) :
    ∀ st : Store, findOne st sid = none → updateFirst sid cs now st = st := by
  intro st
  induction st with
  | nil => intro _; rfl
  | cons m rest ih =>
    intro h
    simp only [findOne] at h ih
    by_cases hm : (m.short_id == sid) = true
    · rw [List.find?_cons_of_pos (p := fun d : UrlModel => d.short_id == sid) _ hm] at h
      simp at h
    · rw [List.find?_cons_of_neg (p := fun d : UrlModel => d.short_id == sid) _ hm] at h
      simp [updateFirst, hm, ih h]

/-- `update_one` updates exactly the document `find_one` would return, and a
changeset without a `short_id` delta keeps it reachable under the same id. -/
theorem findOne_updateFirst (sid : String) (cs : UrlModelChangeset) (now : Nat)
    (hsid : cs.short_id = none) :
    ∀ (st : Store) (m : UrlModel), findOne st sid = some m →
      findOne (updateFirst sid cs now st) sid = some (applySet cs now m) := by
  intro st
  induction st with
  | nil => intro m h; simp [findOne] at h
  | cons a rest ih =>
    intro m h
    simp only [findOne] at h ih ⊢
    by_cases ha : (a.short_id == sid) = true
    · rw [List.find?_cons_of_pos (p := fun d : UrlModel => d.short_id == sid) _ ha] at h
      injection h with hma
      subst hma
      have hset : (applySet cs now a).short_id = a.short_id := by
        simp [applySet, hsid]
      simp only [updateFirst, if_pos ha]
      exact List.find?_cons_of_pos (p := fun d : UrlModel => d.short_id == sid) _
        (by simp only []; rw [hset]; exact ha)
    · rw [List.find?_cons_of_neg (p := fun d : UrlModel => d.short_id == sid) _ ha] at h
      simp only [updateFirst, if_neg ha]
      rw [List.find?_cons_of_neg (p := fun d : UrlModel => d.short_id == sid) _ ha]
      exact ih m h

/-- One unfolding of the retry loop body of `create_url`. -/
theorem create_url_go_succ (gen : Nat → String) (now : Nat)
    (faults : Nat → Option MongoError) (fuel genCalls attempt : Nat)
    (u : Url) (st : Store) :
    create_url_go gen now faults (fuel + 1) genCalls attempt u st =
      match u.save st now (faults attempt) with
      | (u', .ok st', calls) => (.ok u'.get_short_id, u', st', calls)
      | (u', .error _, calls) =>
        let r := create_url_go gen now faults fuel (genCalls + 1) (attempt + 1)
          (u'.update_short_id (gen genCalls)) st
        (r.1, r.2.1, r.2.2.1, calls ++ r.2.2.2) := rfl

/-- `create_url` fully unfolded: with `SAVE_RETRY_COUNT = 2` the Rust range
`1..SAVE_RETRY_COUNT` yields exactly one loop iteration, so the whole
operation is a single save attempt; on error the id is regenerated (and
merely stored in the changeset) before the loop ends with the allocation
failure. -/
theorem create_url_unfold (gen : Nat → String) (full_url : String) (now : Nat)
    (st : Store) (faults : Nat → Option MongoError) :
    create_url gen full_url now st faults =
      match (Url.new (gen 0) full_url 0 now).save st now (faults 0) with
      | (u', .ok st', calls) => (.ok u'.get_short_id, u', st', calls)
      | (u', .error _, calls) =>
        (.error "could not generate a unique ID",
         u'.update_short_id (gen 1), st, calls ++ []) := rfl

/-- With a normally behaving backend, `create_url` on a store where the first
generated id is still free inserts the new document and returns that id. -/
theorem create_url_ok_of_fresh (gen : Nat → String) (full_url : String)
    (now : Nat) (st : Store)
    (hfree : st.any (fun d : UrlModel => d.short_id == gen 0) = false) :
    create_url gen full_url now st (fun _ => none) =
      (.ok (gen 0), Url.new (gen 0) full_url 0 now,
       st ++ [(Url.new (gen 0) full_url 0 now).model],
       [.insert (Url.new (gen 0) full_url 0 now).model]) := by
  rw [create_url_unfold]
  have hsave : (Url.new (gen 0) full_url 0 now).save st now none =
      ((Url.new (gen 0) full_url 0 now),
       .ok (st ++ [(Url.new (gen 0) full_url 0 now).model]),
       [.insert (Url.new (gen 0) full_url 0 now).model]) := by
    simp [Url.save, Url.saveNewUrl, Url.new, insertOne, hfree]
  rw [hsave]
  rfl

/-- With a normally behaving backend, `create_url` on a store already holding
the first generated id fails with the allocation error. -/
theorem create_url_dup (gen : Nat → String) (full_url : String)
    (now : Nat) (st : Store)
    (hdup : st.any (fun d : UrlModel => d.short_id == gen 0) = true) :
    (create_url gen full_url now st (fun _ => none)).1 =
      .error "could not generate a unique ID" := by
  rw [create_url_unfold]
  have hsave : (Url.new (gen 0) full_url 0 now).save st now none =
      ((Url.new (gen 0) full_url 0 now),
       .error .duplicateKey,
       [.insert (Url.new (gen 0) full_url 0 now).model]) := by
    simp [Url.save, Url.saveNewUrl, Url.new, insertOne, hdup]
  rw [hsave]

/-- A `get_url` call on a stored short id with a normally behaving backend:
returns the stored full URL and bumps the record's view count by one via a
view-count-only changeset. -/
theorem get_url_step (st : Store) (sid : String) (now : Nat) (m : UrlModel)
    (hfind : findOne st sid = some m) :
    get_url st sid now none none =
      (.ok (some m.full_url),
       updateFirst m.short_id
         { short_id := none, full_url := none,
           view_count := some ((m.view_count + 1) % 2 ^ 32) } now st,
       [.findOne sid,
        .update m.short_id
          { short_id := none, full_url := none,
            view_count := some ((m.view_count + 1) % 2 ^ 32) }]) := by
  simp only [get_url, hfind]
  rfl

/-- Invariant of repeated `get_url` calls: starting from a store where `sid`
resolves to `m` with a `u32`-range view count, every one of the N calls
succeeds with `m.full_url`, and the stored record's view count afterwards is
the initial count plus N, wrapped modulo `2 ^ 32`. -/
theorem get_url_seq_spec (sid : String) (now : Nat) :
    ∀ (N : Nat) (st : Store) (m : UrlModel), findOne st sid = some m →
      m.view_count < 2 ^ 32 →
      (∀ r ∈ (get_url_seq sid now N st).1, r = .ok (some m.full_url)) ∧
      ∃ m', findOne (get_url_seq sid now N st).2 sid = some m' ∧
        m'.full_url = m.full_url ∧
        m'.view_count = (m.view_count + N) % 2 ^ 32 := by
  intro N
  induction N with
  | zero =>
    intro st m h hlt
    refine ⟨by simp [get_url_seq], m, h, rfl, ?_⟩
    have h32 : (2 : Nat) ^ 32 = 4294967296 := by norm_num
    rw [h32] at hlt ⊢
    omega
  | succ n ih =>
    intro st m h hlt
    have hsid : m.short_id = sid := by
      have hp := List.find?_some (p := fun d : UrlModel => d.short_id == sid) h
      simpa using hp
    have hnext : findOne (updateFirst m.short_id
        { short_id := none, full_url := none,
          view_count := some ((m.view_count + 1) % 2 ^ 32) } now st) sid =
        some (applySet
          { short_id := none, full_url := none,
            view_count := some ((m.view_count + 1) % 2 ^ 32) } now m) := by
      rw [hsid]
      exact findOne_updateFirst sid _ now rfl st m h
    have hlt' : (applySet
        { short_id := none, full_url := none,
          view_count := some ((m.view_count + 1) % 2 ^ 32) } now m).view_count <
        2 ^ 32 := by
      have h32 : (2 : Nat) ^ 32 = 4294967296 := by norm_num
      simp only [applySet, Option.getD_some]
      rw [h32]
      omega
    obtain ⟨hres, m', hm', hfu, hvc⟩ := ih _ _ hnext hlt'
    simp only [get_url_seq, get_url_step st sid now m h]
    refine ⟨?_, m', hm', ?_, ?_⟩
    · intro r hr
      rcases List.mem_cons.mp hr with hr1 | hr1
      · exact hr1
      · exact hres r hr1
    · simpa [applySet] using hfu
    · simp only [applySet] at hvc
      simp at hvc
      have h32 : (2 : Nat) ^ 32 = 4294967296 := by norm_num
      simp only [h32] at hvc ⊢
      omega

/-! ## Claim theorems -/

/-- C1: the claim says that after a duplicate-key failure of the initial
save, `create_url` issues a second insert attempt with the regenerated id
before giving up.  The code refutes this: with the generator returning `"X"`
then `"Y"` and a store already holding `"X"`, the whole run issues exactly
one backend call — the insert using `"X"` — and returns the allocation
failure; the regenerated id `"Y"` only ever reaches the aggregate's pending
changeset and no save is attempted with it.  (The Rust loop
`for _ in 1..SAVE_RETRY_COUNT` with `SAVE_RETRY_COUNT = 2` runs exactly
once, so the regeneration step is dead code — a slip contradicting the
retry design the constant and the spec describe.) -/
theorem C1_single_attempt_no_retry :
    create_url collideGen "http://mine" 5 collideStore (fun _ => none) =
      (.error "could not generate a unique ID",
       (Url.new "X" "http://mine" 0 5).update_short_id "Y",
       collideStore,
       [.insert (Url.new "X" "http://mine" 0 5).model]) := by
  rfl

/-- C8 counterexample: for an aggregate whose `u32` view counter sits at
`u32::MAX = 2 ^ 32 - 1`, two `increment_view_count` calls without a save
leave the pending changeset's view count at `0` — the wrapped `u32`
increment — not at `c + 1 = 2 ^ 32`, refuting the claim as stated at this
input. -/
theorem C8_cex_wraps_at_u32_max :
    (((Url.from_model maxedModel).increment_view_count).increment_view_count).changeset =
      some { short_id := none, full_url := none, view_count := some 0 } ∧
    maxedModel.view_count = 2 ^ 32 - 1 ∧
    (0 : Nat) ≠ (2 ^ 32 - 1) + 1 := by
  refine ⟨rfl, rfl, by norm_num⟩

/-- C8 amended: for every aggregate whose in-memory `view_count` is `c`,
calling `increment_view_count` two or more times without an intervening save
leaves the pending changeset's view count at the single wrapped `u32`
increment `(c + 1) % 2 ^ 32`: the pending value is overwritten, never
accumulated.  This equals `c + 1` for every `c < u32::MAX`; at
`c = u32::MAX` the `u32` addition wraps to `0` (release builds; a debug
build panics there). -/
theorem C8_repeated_increment_overwrites (u : Url) (k : Nat) :
    (Url.increment_view_count^[k + 2] u).changeset =
      some { short_id := none, full_url := none,
             view_count := some ((u.model.view_count + 1) % 2 ^ 32) } := by
  have hfix : ∀ (j : Nat) (v : Url),
      Url.increment_view_count^[j + 1] v = Url.increment_view_count v := by
    intro j
    induction j with
    | zero => intro v; simp
    | succ j ih =>
      intro v
      rw [Function.iterate_succ_apply, ih]
      simp [Url.increment_view_count]
  rw [show k + 2 = (k + 1) + 1 from rfl, hfix]
  rfl

/-- C10: `increment_view_count` replaces the whole pending changeset: a
pending `short_id` delta set by `update_short_id` is discarded, leaving a
changeset holding only the view-count delta. -/
theorem C10_increment_discards_pending_short_id (u : Url) (n : String) :
    ((u.update_short_id n).increment_view_count).changeset =
      some { short_id := none, full_url := none,
             view_count := some ((u.model.view_count + 1) % 2 ^ 32) } := by
  simp [Url.increment_view_count, update_short_id_model]

/-- C4 counterexample: after `update_short_id "b"` on a fresh aggregate with
id `"a"`, `get_short_id` still returns `"a"`, not the new id — the claim that
reads reflect the locally-applied changeset fails. -/
theorem C4_cex_accessor_ignores_changeset :
    ((Url.new "a" "http://e" 0 0).update_short_id "b").get_short_id = "a" ∧
    ("a" : String) ≠ "b" := by
  constructor
  · rfl
  · decide

/-- C4 amended: the read accessors return the model's field values only,
which never reflect a pending changeset: `update_short_id` leaves both
accessors unchanged, and a save (successful or not) leaves the in-memory
model unchanged — it is never updated to mirror an applied changeset. -/
theorem C4_accessors_read_model_only (u : Url) (n : String) (st : Store)
    (now : Nat) (fault : Option MongoError) :
    (u.update_short_id n).get_short_id = u.get_short_id ∧
    (u.update_short_id n).get_full_url = u.get_full_url ∧
    ((u.save st now fault).1).model = u.model := by
  refine ⟨?_, ?_, ?_⟩
  · simp [Url.get_short_id, update_short_id_model]
  · simp [Url.get_full_url, update_short_id_model]
  · cases h : u.changeset <;> cases fault <;>
      simp [Url.save, Url.saveFromChangeset, Url.saveNewUrl, h]

/-- C2 counterexample: a Persisted aggregate with a pending view-count
changeset, saved while the backend round trip fails with a connectivity
error: the save fails, yet the pending changeset is gone afterwards — it is
not retained for inspection or retry. -/
theorem C2_cex_failed_save_loses_changeset :
    ((Url.from_model sampleModel).increment_view_count).changeset.isSome = true ∧
    (((Url.from_model sampleModel).increment_view_count).save [sampleModel] 7
      (some (.other "network"))).2.1 = .error (.other "network") ∧
    (((Url.from_model sampleModel).increment_view_count).save [sampleModel] 7
      (some (.other "network"))).1.changeset = none := by
  refine ⟨rfl, rfl, rfl⟩

/-- C2 amended: on a failed save the aggregate makes no state transition —
its model and its fetched-from-DB flag are unchanged — but the pending
changeset is consumed (taken before the backend round trip), so after the
failure it is cleared, not retained for inspection or retry. -/
theorem C2_failed_save_clears_changeset (u : Url) (cs : UrlModelChangeset)
    (st : Store) (now : Nat) (e : MongoError)
    (h : u.changeset = some cs) :
    u.save st now (some e) =
      ({ u with changeset := none }, .error e,
       [.update u.model.short_id cs]) := by
  simp [Url.save, Url.saveFromChangeset, h]

/-- C2 witness: the amended theorem applied to a concrete aggregate. -/
theorem C2_failed_save_clears_changeset_witness :
    ((Url.from_model sampleModel).increment_view_count).changeset =
      some { short_id := none, full_url := none, view_count := some 4 } ∧
    ((Url.from_model sampleModel).increment_view_count).save [sampleModel] 7
        (some (.other "network")) =
      (Url.from_model sampleModel,
       .error (.other "network"),
       [.update "s" { short_id := none, full_url := none, view_count := some 4 }]) :=
  ⟨rfl,
   C2_failed_save_clears_changeset _ _ [sampleModel] 7 (.other "network") rfl⟩

/-- C3 counterexample: saving an aggregate whose pending changeset targets a
`short_id` with no stored record returns success (`Ok`), not a NotFound
error — the claim that it fails is refuted. -/
theorem C3_cex_missing_record_save_succeeds :
    findOne [] "x" = none ∧
    ((Url.from_model missModel).increment_view_count).changeset.isSome = true ∧
    (((Url.from_model missModel).increment_view_count).save [] 5 none).2.1 =
      .ok [] := by
  refine ⟨rfl, rfl, rfl⟩

/-- C3 amended: applying a changeset for a `short_id` with no matching stored
record silently succeeds: the backend `update_one` matches zero documents
without error, the store is unchanged, and the aggregate's changeset is
cleared — no NotFound is signalled. -/
theorem C3_missing_record_silent_success (u : Url) (cs : UrlModelChangeset)
    (st : Store) (now : Nat)
    (hcs : u.changeset = some cs)
    (hmiss : findOne st u.model.short_id = none) :
    u.save st now none =
      ({ u with changeset := none }, .ok st,
       [.update u.model.short_id cs]) := by
  simp [Url.save, Url.saveFromChangeset, hcs,
    updateFirst_of_findOne_none _ _ _ _ hmiss]

/-- C3 witness: the amended theorem applied to a concrete aggregate and an
empty store. -/
theorem C3_missing_record_silent_success_witness :
    ((Url.from_model missModel).increment_view_count).save [] 5 none =
      (Url.from_model missModel,
       .ok [],
       [.update "x" { short_id := none, full_url := none, view_count := some 1 }]) :=
  C3_missing_record_silent_success _
    { short_id := none, full_url := none, view_count := some 1 }
    [] 5 rfl rfl

/-- C5 counterexample: a non-duplicate backend error (`"boom"`) on the save
does NOT surface to the caller — `create_url` returns the fixed allocation
failure message instead — and an id regeneration IS performed (the pending
changeset carries the regenerated id `"Y"`), refuting both halves of the
claim. -/
theorem C5_cex_error_swallowed_and_regenerated :
    (create_url collideGen "http://mine" 5 [] boomFaults).1 =
      .error "could not generate a unique ID" ∧
    ("could not generate a unique ID" : String) ≠ "boom" ∧
    (create_url collideGen "http://mine" 5 [] boomFaults).2.1.changeset =
      some { short_id := some "Y", full_url := none, view_count := none } := by
  refine ⟨rfl, by decide, rfl⟩

/-- C5 amended: `create_url` does not distinguish duplicate-key errors from
other backend errors — every save error alike triggers an id regeneration
via `update_short_id`, and once the (single-iteration) retry budget is spent
the caller receives the fixed allocation-failure message; the original
backend error is swallowed, never surfaced. -/
theorem C5_all_backend_errors_treated_alike (gen : Nat → String)
    (full_url : String) (now : Nat) (st : Store) (e : MongoError) :
    create_url gen full_url now st (fun _ => some e) =
      (.error "could not generate a unique ID",
       (Url.new (gen 0) full_url 0 now).update_short_id (gen 1),
       st,
       [.insert (Url.new (gen 0) full_url 0 now).model]) := by
  rfl

/-- C6: round trip — whenever `create_url` succeeds with short id `s`
(normally behaving backend), `get_url` on `s` succeeds and returns exactly
the original full URL, unchanged. -/
theorem C6_round_trip (gen : Nat → String) (full_url : String)
    (now now2 : Nat) (st : Store) (s : String) (u' : Url) (st' : Store)
    (tr : List RecordStoreCall)
    (h : create_url gen full_url now st (fun _ => none) =
      (.ok s, u', st', tr)) :
    (get_url st' s now2 none none).1 = .ok (some full_url) := by
  by_cases hfree : st.any (fun d : UrlModel => d.short_id == gen 0) = false
  · rw [create_url_ok_of_fresh gen full_url now st hfree] at h
    have hcomp := h.symm
    simp only [Prod.mk.injEq, Except.ok.injEq] at hcomp
    obtain ⟨hs, -, hst, -⟩ := hcomp
    subst hs
    subst hst
    have hnone : List.find? (fun d : UrlModel => d.short_id == gen 0) st =
        none := by
      rw [List.find?_eq_none]
      intro x hx
      simpa using (List.any_eq_false.mp hfree) x hx
    have hfind : findOne
        (st ++ [(Url.new (gen 0) full_url 0 now).model]) (gen 0) =
        some (Url.new (gen 0) full_url 0 now).model := by
      simp only [findOne]
      rw [List.find?_append, hnone]
      simp [Url.new]
    simp only [get_url, hfind]
    rfl
  · have hdup : st.any (fun d : UrlModel => d.short_id == gen 0) = true := by
      revert hfree
      cases st.any (fun d : UrlModel => d.short_id == gen 0) <;> simp
    have hres := create_url_dup gen full_url now st hdup
    rw [h] at hres
    simp at hres

/-- C6 witness: the round-trip theorem applied to a concrete shorten of
`"http://e.com"` into an empty store. -/
theorem C6_round_trip_witness :
    create_url (fun _ => "S") "http://e.com" 1 [] (fun _ => none) =
      (.ok "S", Url.new "S" "http://e.com" 0 1,
       [(Url.new "S" "http://e.com" 0 1).model],
       [.insert (Url.new "S" "http://e.com" 0 1).model]) ∧
    (get_url [(Url.new "S" "http://e.com" 0 1).model] "S" 2 none none).1 =
      .ok (some "http://e.com") :=
  ⟨rfl, C6_round_trip (fun _ => "S") "http://e.com" 1 2 [] "S" _ _ _ rfl⟩

/-- C7 counterexample: after `N = 2 ^ 32` sequential `get_url` calls on a
record created with view count 0, the persisted `u32` counter has wrapped
back to `0`, not `N` — the claim fails at this input. -/
theorem C7_cex_wraps_after_u32_max_gets :
    ((findOne (get_url_seq "x" 9 (2 ^ 32) [missModel]).2 "x").map
      (fun d => d.view_count) = some 0) ∧
    (0 : Nat) ≠ 2 ^ 32 := by
  constructor
  · obtain ⟨-, m', hm', -, hvc⟩ :=
      get_url_seq_spec "x" 9 (2 ^ 32) [missModel] missModel rfl
        (by norm_num [missModel])
    rw [hm']
    simp [missModel] at hvc
    simp [hvc]
  · norm_num

/-- C7 amended: starting from a stored record with view count 0, N
sequential (non-concurrent) `get_url` calls on its short id all succeed,
and the persisted view count afterwards equals `N % 2 ^ 32` — the `u32`
counter wraps (release builds; a debug build would panic at the overflow).
In particular it equals N for every `N < 2 ^ 32`. -/
theorem C7_view_count_after_N_gets (st : Store) (sid : String) (m : UrlModel)
    (now : Nat) (N : Nat)
    (hfind : findOne st sid = some m) (h0 : m.view_count = 0) :
    (∀ r ∈ (get_url_seq sid now N st).1, r = .ok (some m.full_url)) ∧
    (findOne (get_url_seq sid now N st).2 sid).map (fun d => d.view_count) =
      some (N % 2 ^ 32) := by
  obtain ⟨hres, m', hm', hfu, hvc⟩ :=
    get_url_seq_spec sid now N st m hfind (by rw [h0]; norm_num)
  refine ⟨hres, ?_⟩
  rw [hm']
  simp [hvc, h0]

/-- C7 witness: three sequential `get_url` calls on a store holding one
record with view count 0 leave its persisted view count at `3 % 2 ^ 32`,
that is, 3. -/
theorem C7_view_count_after_N_gets_witness :
    findOne [missModel] "x" = some missModel ∧ missModel.view_count = 0 ∧
    ((∀ r ∈ (get_url_seq "x" 9 3 [missModel]).1,
        r = .ok (some missModel.full_url)) ∧
     (findOne (get_url_seq "x" 9 3 [missModel]).2 "x").map
        (fun d => d.view_count) = some (3 % 2 ^ 32)) :=
  ⟨rfl, rfl, C7_view_count_after_N_gets [missModel] "x" missModel 9 3 rfl rfl⟩

/-- C9: an input that fails the URL pattern `^https?://[^ \x22]+$` makes the
shorten command exit with the validation error `"invalid URL format"`, the
store untouched and no document-level backend call issued while processing
the command.  (The idempotent index setup runs at process startup before the
arguments are even parsed, so it is not part of processing the command; it
creates an index and performs no document operation.) -/
theorem C9_invalid_url_rejected_before_backend (exe s : String)
    (gen : Nat → String) (now : Nat) (st : Store)
    (h : is_valid_url s = false) :
    shorty_main [exe, "shorten", s] gen now st =
      (.exitFailure "invalid URL format", st, []) := by
  have hb : ShortyArgs.build [exe, "shorten", s] =
      .error "invalid URL format" := by
    show (if ("shorten" : String) = "lengthen" then
            Except.ok (ShortyCommand.lengthen s)
          else if ("shorten" : String) = "shorten" then
            (if is_valid_url s then Except.ok (ShortyCommand.shorten s)
             else Except.error "invalid URL format")
          else Except.error "invalid command") = .error "invalid URL format"
    rw [if_neg (by decide), if_pos rfl, h]
    rfl
  simp only [shorty_main, hb]

/-- C9 witness: the rejection theorem applied to the malformed input
`"https;//example.com"` (the crate's own negative test case). -/
theorem C9_invalid_url_rejected_before_backend_witness :
    is_valid_url "https;//example.com" = false ∧
    shorty_main ["shorty", "shorten", "https;//example.com"]
        (fun _ => "S") 0 [] =
      (.exitFailure "invalid URL format", [], []) :=
  ⟨by decide,
   C9_invalid_url_rejected_before_backend "shorty" "https;//example.com"
     (fun _ => "S") 0 [] (by decide)⟩

end Shorty
